import Mathlib

/-!
Verification of the web-to-pdf capture-and-compose pipeline
(`web_to_pdf.py`): a shallow embedding of the document model, the
merge step (`merge_pdfs`), the metadata-overlay step
(`add_header_footer`) and the file-effect behaviour of
`capture_webpage` and `main`, together with theorems settling the
specification claims about them.
-/

namespace WebToPdf

/-! ## Document model

A page of a rendered PDF: opaque content plus the media-box size the
page itself carries (sizes in PDF points, modelled as rationals).
A document is the ordered list of its pages.
-/

structure Page where
  content : String
  width : ℚ
  height : ℚ
deriving DecidableEq, Repr

abbrev Doc := List Page

/-! ## Document merge (source `merge_pdfs`, lines 332-360)

The source checks `os.path.exists` on each input path, so each input
is modelled as `Option Doc` (`none` = file absent).  It takes page 0
of the first document when that document has at least one page, then
pages 1.. of the second document, writes the result unconditionally
to the output path, and returns that path.
-/

def merge_pages (first rest : Option Doc) : Doc :=
  (match first with
   | none => []
   | some d => d.take 1) ++
  (match rest with
   | none => []
   | some d => d.drop 1)

structure MergeOutcome where
  pages : Doc
  written : Bool
  returned : String
deriving DecidableEq, Repr

def merge_pdfs (first rest : Option Doc) (output_path : String) : MergeOutcome :=
  { pages := merge_pages first rest, written := true, returned := output_path }

/-! ## Metadata overlay (source `add_header_footer`, lines 363-416)

The source fixes `page_width, page_height = letter` (the reportlab
Letter constants, 612 x 792 points) for every page and draws the
stamp at coordinates computed from those constants and `inch = 72`;
the individual page object is only used as the base the overlay is
merged onto.
-/

def inch : ℚ := 72

def letterWidth : ℚ := 612

def letterHeight : ℚ := 792

structure Stamp where
  headerUrlText : String
  headerFetchedText : String
  footerText : String
  urlPos : ℚ × ℚ
  fetchedPos : ℚ × ℚ
  sepFrom : ℚ × ℚ
  sepTo : ℚ × ℚ
  footerPos : ℚ × ℚ
deriving DecidableEq, Repr

def mkStamp (url timestamp : String) (page_num total : Nat) (page : Page) : Stamp :=
  let page_width := letterWidth
  let page_height := letterHeight
  { headerUrlText := "URL: " ++ url
  , headerFetchedText := "Fetched: " ++ timestamp
  , footerText := "Page " ++ toString (page_num + 1) ++ " of " ++ toString total
  , urlPos := (1/2 * inch, page_height - 1/2 * inch)
  , fetchedPos := (1/2 * inch, page_height - 13/20 * inch)
  , sepFrom := (1/2 * inch, page_height - 7/10 * inch)
  , sepTo := (page_width - 1/2 * inch, page_height - 7/10 * inch)
  , footerPos := (page_width - 1 * inch, 1/2 * inch) }

structure StampedPage where
  base : Page
  stamp : Stamp
deriving DecidableEq, Repr

/-- The loop `for page_num in range(len(reader.pages))`: stamp page
`k`, `k+1`, ... with the page count `total` fixed up front. -/
def stampFrom (url timestamp : String) (total : Nat) : Nat → Doc → List StampedPage
  | _, [] => []
  | k, p :: ps =>
    { base := p, stamp := mkStamp url timestamp k total p } ::
      stampFrom url timestamp total (k + 1) ps

def add_header_footer (doc : Doc) (url timestamp : String) : List StampedPage :=
  stampFrom url timestamp doc.length 0 doc

/-! ## File-effect model of the pipeline

`capture_webpage` (lines 22-329), `add_header_footer` (file side,
lines 363-416) and `main` (lines 419-456) interact with the browser
and the filesystem.  The model records, in a `Trace`: the set of files
currently on disk and every file ever created, the number of
navigations performed, the arguments of the two `set_content` calls,
and the warnings printed.  An `Env` fixes the outcome of each external
operation (whether it succeeds) and the data the external world
supplies (fetched content, the pages each render produces, the
current time).  A raised Python exception is an `Option String` error
result; control flow after a failure follows the source's
`try`/`finally` structure exactly.
-/

/-- `os.path.basename`: the component after the last path separator. -/
def basename (p : String) : String :=
  String.mk (((p.data.reverse).takeWhile (fun c => c ≠ '/')).reverse)

/-- Creating (or overwriting) a file named `n`: the list of names on
disk is read as a finite set, so recording the name again at the end
is adequate; `fsDel` removes every occurrence. -/
def fsAdd (fs : List String) (n : String) : List String :=
  fs ++ [n]

def fsDel (fs : List String) (n : String) : List String :=
  fs.filter (fun x => x ≠ n)

structure FsState where
  fs : List String
  created : List String
deriving DecidableEq, Repr

def fsTouch (s : FsState) (n : String) : FsState :=
  { fs := fsAdd s.fs n, created := s.created ++ [n] }

def fsRm (s : FsState) (n : String) : FsState :=
  { s with fs := fsDel s.fs n }

structure Env where
  gotoOk : Bool
  initScriptOk : Bool
  popupsOk : Bool
  resizeOk : Bool
  headerMarkOk : Bool
  firstRenderOk : Bool
  restRenderOk : Bool
  mergeOpenOk : Bool
  removeFirstOk : Bool
  removeRestOk : Bool
  stampFailsAt : Option Nat
  content : String
  firstDoc : Doc
  restDoc : Doc
  now : String
deriving DecidableEq, Repr

structure Trace where
  fsState : FsState
  navUrls : List String
  setContentArgs : List String
  warnings : List String
  viewport : Option (Nat × Nat)
  merged : Doc
deriving DecidableEq, Repr

def Trace.start : Trace :=
  { fsState := { fs := [], created := [] }, navUrls := [], setContentArgs := [],
    warnings := [], viewport := none, merged := [] }

/-- The filter phase (lines 85-285): the ad-blocker setup is the only
part wrapped in its own `try`/`except` (failure becomes a printed
warning); a failure of the popup-removal, image-resize or header
evaluation propagates out.  No file is touched here. -/
def capture_filters (env : Env) (t1 : Trace) : Trace × Option String :=
  let t2 := if env.initScriptOk then t1
            else { t1 with warnings := t1.warnings ++ ["Failed to set up ad blocker"] }
  if env.popupsOk = false then (t2, some ("popup eval error"))
  else if env.resizeOk = false then (t2, some ("image resize eval error"))
  else if env.headerMarkOk = false then (t2, some ("header eval error"))
  else (t2, none)

/-- The render phase (lines 287-314): each successful `page.pdf` call
creates its output file; a render failure propagates (the `finally`
closes the browser but removes nothing). -/
def capture_renders (env : Env) (t2 : Trace) (first_page_pdf rest_pages_pdf : String) :
    Trace × Option String :=
  if env.firstRenderOk = false then (t2, some ("first render error"))
  else
    let t3 := { t2 with fsState := fsTouch t2.fsState first_page_pdf }
    if env.restRenderOk = false then (t3, some ("rest render error"))
    else ({ t3 with fsState := fsTouch t3.fsState rest_pages_pdf }, none)

/-- The merge and cleanup phase (lines 319-329): `merge_pdfs` writes
the merged output (both render files exist at this point, so it reads
exactly the two rendered documents), then each render file is removed
when it exists — sequentially, so a failing first removal skips the
second. -/
def capture_merge_cleanup (env : Env) (t4 : Trace)
    (first_page_pdf rest_pages_pdf output_path : String) : Trace × Option String :=
  if env.mergeOpenOk = false then (t4, some ("merge write error"))
  else
    let t5 := { t4 with
      fsState := fsTouch t4.fsState output_path,
      merged := merge_pages (some env.firstDoc) (some env.restDoc) }
    if t5.fsState.fs.contains first_page_pdf then
      if env.removeFirstOk = false then (t5, some ("remove first error"))
      else
        let t6 := { t5 with fsState := fsRm t5.fsState first_page_pdf }
        if t6.fsState.fs.contains rest_pages_pdf then
          if env.removeRestOk = false then (t6, some ("remove rest error"))
          else ({ t6 with fsState := fsRm t6.fsState rest_pages_pdf }, none)
        else (t6, none)
    else
      if t5.fsState.fs.contains rest_pages_pdf then
        if env.removeRestOk = false then (t5, some ("remove rest error"))
        else ({ t5 with fsState := fsRm t5.fsState rest_pages_pdf }, none)
      else (t5, none)

/-- Everything inside `capture_webpage` after the navigation and the
two `set_content` calls, chained with the source's early exit on a
raised exception. -/
def capture_after_goto (env : Env) (t1 : Trace)
    (first_page_pdf rest_pages_pdf output_path : String) : Trace × Option String :=
  match capture_filters env t1 with
  | (t, some e) => (t, some e)
  | (t2, none) =>
    match capture_renders env t2 first_page_pdf rest_pages_pdf with
    | (t, some e) => (t, some e)
    | (t4, none) => capture_merge_cleanup env t4 first_page_pdf rest_pages_pdf output_path

/-- `capture_webpage` (lines 22-329).  The scaled viewport is
`int(dim * scale / 100)`, natural floor division for these
non-negative in-range inputs.  Navigation to `url` is attempted once;
on success both fresh surfaces receive the one cached snapshot via
`set_content`, and the rest of the body runs with the source's
early exit on a raised exception. -/
def capture_webpage_fs (env : Env) (url output_path : String)
    (viewport_width viewport_height scale : Nat) : Trace × Option String :=
  let scaled_viewport_width := viewport_width * scale / 100
  let scaled_viewport_height := viewport_height * scale / 100
  let first_page_pdf := "first_page_" ++ basename output_path
  let rest_pages_pdf := "rest_pages_" ++ basename output_path
  let t0 : Trace := { Trace.start with
    viewport := some (scaled_viewport_width, scaled_viewport_height),
    navUrls := [url] }
  if env.gotoOk = false then (t0, some ("navigation error"))
  else
    let cached_content := env.content
    let t1 := { t0 with setContentArgs := [cached_content, cached_content] }
    capture_after_goto env t1 first_page_pdf rest_pages_pdf output_path

def overlayName (i : Nat) : String := "overlay_" ++ (toString i ++ ".pdf")

/-- The per-page half of `add_header_footer`: for each page a fresh
`overlay_{i}.pdf` is created by the canvas `save`, then removed after
the page merge — but the removal (line 410) is skipped when the merge
of that page fails, leaving that overlay file behind. -/
def stampLoop (failAt : Option Nat) : Nat → Nat → FsState → FsState × Option String
  | 0, _, s => (s, none)
  | fuel + 1, i, s =>
    let s1 := fsTouch s (overlayName i)
    if failAt = some i then (s1, some ("page merge error"))
    else stampLoop failAt fuel (i + 1) (fsRm s1 (overlayName i))

/-- File side of `add_header_footer` (lines 363-416): run the stamp
loop over all pages of the input, then write the output file. -/
def add_header_footer_fs (failAt : Option Nat) (s : FsState) (pageCount : Nat)
    (output_pdf : String) : FsState × Option String :=
  match stampLoop failAt pageCount 0 s with
  | (s1, some e) => (s1, some e)
  | (s1, none) => (fsTouch s1 output_pdf, none)

/-- The `if os.path.exists(...): os.remove(...)` idiom. -/
def removeIfExists (t : Trace) (n : String) : Trace :=
  if t.fsState.fs.contains n then { t with fsState := fsRm t.fsState n } else t

/-- `main` (lines 419-456): validate the scale first (raising
`click.BadParameter` before any other work), take the timestamp once,
run the capture into `temp_{basename(output)}`, stamp it into the
output, and in the `finally` remove the temporary merged file when it
exists.  The default-filename derivation for a missing `--output` is
outside this core (spec section 1), so the model takes the resolved
output path. -/
def main (env : Env) (url output : String) (width height scale : Nat) :
    Trace × Option String :=
  if 10 ≤ scale ∧ scale ≤ 200 then
    let temp_pdf := "temp_" ++ basename output
    match capture_webpage_fs env url temp_pdf width height scale with
    | (t, some e) => (removeIfExists t temp_pdf, some e)
    | (t, none) =>
      match add_header_footer_fs env.stampFailsAt t.fsState t.merged.length output with
      | (s2, r) => (removeIfExists { t with fsState := s2 } temp_pdf, r)
  else (Trace.start, some ("Scale must be between 10 and 200"))

/-! ## Concrete environments used as evaluation points -/

def envOk : Env :=
  { gotoOk := true, initScriptOk := true, popupsOk := true, resizeOk := true,
    headerMarkOk := true, firstRenderOk := true, restRenderOk := true,
    mergeOpenOk := true, removeFirstOk := true, removeRestOk := true,
    stampFailsAt := none, content := "<html></html>",
    firstDoc := [], restDoc := [], now := "2026-10-12 00:00:00" }

def envRestRenderFails : Env := { envOk with restRenderOk := false }

def envPopupEvalFails : Env := { envOk with popupsOk := false }

def envAdBlockFails : Env := { envOk with initScriptOk := false }

/-! Basic facts about the merge and the overlay. -/

theorem merge_pages_some_some (f r : Doc) :
    merge_pages (some f) (some r) = f.take 1 ++ r.drop 1 := rfl

theorem stampFrom_getElem (url timestamp : String) (total : Nat) :
    ∀ (ps : Doc) (k i : Nat),
      (stampFrom url timestamp total k ps)[i]? =
        (ps[i]?).map fun p =>
          { base := p, stamp := mkStamp url timestamp (k + i) total p } := by
  intro ps
  induction ps with
  | nil => intro k i; simp [stampFrom]
  | cons p ps ih =>
    intro k i
    cases i with
    | zero => simp [stampFrom]
    | succ i =>
      simp only [stampFrom, List.getElem?_cons_succ]
      rw [ih (k + 1) i]
      have harith : k + 1 + i = k + (i + 1) := by omega
      rw [harith]

theorem add_header_footer_getElem (doc : Doc) (url timestamp : String) (i : Nat) :
    (add_header_footer doc url timestamp)[i]? =
      (doc[i]?).map fun p =>
        { base := p, stamp := mkStamp url timestamp i doc.length p } := by
  unfold add_header_footer
  rw [stampFrom_getElem]
  simp

/-! Helper facts: distinctness of the artifact name families, by their
first characters. -/

theorem append_ne_of_head (a b x y : String) (c d : Char)
    (ha : a.data = c :: a.data.tail) (hb : b.data = d :: b.data.tail) (hcd : c ≠ d) :
    a ++ x ≠ b ++ y := by
  intro h
  apply hcd
  have hd : (a ++ x).data = (b ++ y).data := congrArg String.data h
  rw [String.data_append, String.data_append, ha, hb] at hd
  simp only [List.cons_append, List.cons.injEq] at hd
  exact hd.1

theorem first_ne_rest_name (x y : String) :
    ("first_page_" ++ x) ≠ ("rest_pages_" ++ y) :=
  append_ne_of_head _ _ _ _ 'f' 'r' rfl rfl (by decide)

theorem first_ne_temp_name (x y : String) :
    ("first_page_" ++ x) ≠ ("temp_" ++ y) :=
  append_ne_of_head _ _ _ _ 'f' 't' rfl rfl (by decide)

theorem rest_ne_temp_name (x y : String) :
    ("rest_pages_" ++ x) ≠ ("temp_" ++ y) :=
  append_ne_of_head _ _ _ _ 'r' 't' rfl rfl (by decide)

theorem overlay_ne_temp_name (i : Nat) (x : String) :
    overlayName i ≠ ("temp_" ++ x) := by
  unfold overlayName
  exact append_ne_of_head _ _ _ _ 'o' 't' rfl rfl (by decide)

/-! Helper facts: each phase of the capture only changes the trace
fields it is responsible for. -/

theorem capture_filters_shape (env : Env) (t : Trace) :
    ∃ w e, capture_filters env t = ({ t with warnings := w }, e) := by
  unfold capture_filters
  dsimp only
  repeat' split
  all_goals exact ⟨_, _, rfl⟩

theorem capture_renders_shape (env : Env) (t : Trace) (fp rp : String) :
    ∃ s e, capture_renders env t fp rp = ({ t with fsState := s }, e) := by
  unfold capture_renders
  dsimp only
  repeat' split
  all_goals exact ⟨_, _, rfl⟩

theorem capture_merge_cleanup_shape (env : Env) (t : Trace) (fp rp o : String) :
    ∃ s d e, capture_merge_cleanup env t fp rp o = ({ t with fsState := s, merged := d }, e) := by
  unfold capture_merge_cleanup
  dsimp only
  repeat' split
  all_goals exact ⟨_, _, _, rfl⟩

theorem capture_after_goto_shape (env : Env) (t : Trace) (fp rp o : String) :
    ∃ s w d e, capture_after_goto env t fp rp o =
      ({ t with fsState := s, warnings := w, merged := d }, e) := by
  unfold capture_after_goto
  rcases capture_filters_shape env t with ⟨w1, e1, h1⟩
  rw [h1]
  cases e1 with
  | some e => exact ⟨t.fsState, w1, t.merged, some e, rfl⟩
  | none =>
    dsimp only
    rcases capture_renders_shape env { t with warnings := w1 } fp rp with ⟨s2, e2, h2⟩
    rw [h2]
    cases e2 with
    | some e => exact ⟨s2, w1, t.merged, some e, rfl⟩
    | none =>
      dsimp only
      rcases capture_merge_cleanup_shape env { t with warnings := w1, fsState := s2 } fp rp o
        with ⟨s3, d3, e3, h3⟩
      rw [h3]
      exact ⟨s3, w1, d3, e3, rfl⟩

/-! Helper facts: evaluation of each phase when its operations
succeed. -/

theorem beq_false_of_ne (a b : String) (h : a ≠ b) : (a == b) = false :=
  beq_eq_false_iff_ne.mpr h

theorem capture_filters_ok (env : Env) (t : Trace)
    (hp : env.popupsOk = true) (hrz : env.resizeOk = true) (hh : env.headerMarkOk = true) :
    capture_filters env t =
      ((if env.initScriptOk then t
        else { t with warnings := t.warnings ++ ["Failed to set up ad blocker"] }), none) := by
  unfold capture_filters
  rw [hp, hrz, hh]
  simp

theorem capture_renders_ok (env : Env) (t : Trace) (fp rp : String)
    (h1 : env.firstRenderOk = true) (h2 : env.restRenderOk = true) :
    capture_renders env t fp rp =
      ({ t with fsState := fsTouch (fsTouch t.fsState fp) rp }, none) := by
  unfold capture_renders
  rw [h1, h2]
  simp

theorem capture_merge_cleanup_ok (env : Env) (t : Trace) (fp rp o : String)
    (hm : env.mergeOpenOk = true) (hr1 : env.removeFirstOk = true)
    (hr2 : env.removeRestOk = true)
    (hfs : t.fsState.fs = [fp, rp])
    (hfr : fp ≠ rp) (hfo : fp ≠ o) (hro : rp ≠ o) :
    capture_merge_cleanup env t fp rp o =
      ({ t with
          fsState := { fs := [o], created := t.fsState.created ++ [o] },
          merged := merge_pages (some env.firstDoc) (some env.restDoc) }, none) := by
  have hne1 : rp ≠ fp := Ne.symm hfr
  have hne2 : o ≠ fp := Ne.symm hfo
  have hne3 : o ≠ rp := Ne.symm hro
  unfold capture_merge_cleanup
  rw [hm, hr1, hr2]
  simp only [fsTouch, fsRm, fsAdd, fsDel, hfs]
  simp [List.contains_cons, beq_self_eq_true,
    beq_false_of_ne fp rp hfr, beq_false_of_ne fp o hfo, beq_false_of_ne rp o hro,
    beq_false_of_ne rp fp hne1, beq_false_of_ne o fp hne2, beq_false_of_ne o rp hne3,
    List.filter_cons, List.filter_append, hfr, hfo, hro, hne1, hne2, hne3]

theorem capture_after_goto_ok (env : Env) (t : Trace) (fp rp o : String)
    (hp : env.popupsOk = true) (hrz : env.resizeOk = true) (hh : env.headerMarkOk = true)
    (hf : env.firstRenderOk = true) (hr : env.restRenderOk = true)
    (hm : env.mergeOpenOk = true) (hd1 : env.removeFirstOk = true)
    (hd2 : env.removeRestOk = true)
    (hfs : t.fsState.fs = [])
    (hfr : fp ≠ rp) (hfo : fp ≠ o) (hro : rp ≠ o) :
    capture_after_goto env t fp rp o =
      ({ t with
          fsState := { fs := [o], created := t.fsState.created ++ [fp, rp, o] },
          warnings := if env.initScriptOk then t.warnings
                      else t.warnings ++ ["Failed to set up ad blocker"],
          merged := merge_pages (some env.firstDoc) (some env.restDoc) }, none) := by
  unfold capture_after_goto
  rw [capture_filters_ok env t hp hrz hh]
  cases his : env.initScriptOk with
  | true =>
    simp only [his, if_true]
    rw [capture_renders_ok env t fp rp hf hr]
    dsimp only
    rw [capture_merge_cleanup_ok env { t with fsState := fsTouch (fsTouch t.fsState fp) rp }
      fp rp o hm hd1 hd2 (by simp [fsTouch, fsAdd, hfs]) hfr hfo hro]
    simp [fsTouch, fsAdd]
  | false =>
    simp only [his, Bool.false_eq_true, if_false]
    rw [capture_renders_ok env { t with warnings := t.warnings ++ ["Failed to set up ad blocker"] }
      fp rp hf hr]
    dsimp only
    rw [capture_merge_cleanup_ok env
      { t with warnings := t.warnings ++ ["Failed to set up ad blocker"],
               fsState := fsTouch (fsTouch t.fsState fp) rp }
      fp rp o hm hd1 hd2 (by simp [fsTouch, fsAdd, hfs]) hfr hfo hro]
    simp [fsTouch, fsAdd]

theorem capture_webpage_fs_ok (env : Env) (url o : String) (w h s : Nat)
    (hg : env.gotoOk = true)
    (hp : env.popupsOk = true) (hrz : env.resizeOk = true) (hh : env.headerMarkOk = true)
    (hf : env.firstRenderOk = true) (hr : env.restRenderOk = true)
    (hm : env.mergeOpenOk = true) (hd1 : env.removeFirstOk = true)
    (hd2 : env.removeRestOk = true)
    (hfo : ("first_page_" ++ basename o) ≠ o) (hro : ("rest_pages_" ++ basename o) ≠ o) :
    capture_webpage_fs env url o w h s =
      (Trace.mk
        (FsState.mk [o] ["first_page_" ++ basename o, "rest_pages_" ++ basename o, o])
        [url]
        [env.content, env.content]
        (if env.initScriptOk then [] else ["Failed to set up ad blocker"])
        (some (w * s / 100, h * s / 100))
        (merge_pages (some env.firstDoc) (some env.restDoc)), none) := by
  unfold capture_webpage_fs
  dsimp only
  rw [hg]
  rw [if_neg (by simp : ¬ ((true : Bool) = false))]
  rw [capture_after_goto_ok env _ _ _ _ hp hrz hh hf hr hm hd1 hd2 rfl
    (first_ne_rest_name _ _) hfo hro]
  rfl

theorem capture_popup_fail (env : Env) (url o : String) (w h s : Nat)
    (hg : env.gotoOk = true) (hp : env.popupsOk = false) :
    (capture_webpage_fs env url o w h s).2 = some ("popup eval error") := by
  unfold capture_webpage_fs capture_after_goto capture_filters
  rw [hg, hp]
  simp

/-! Helper facts: the overlay loop removes each overlay fragment it
creates, so a run with no page-merge failure leaves the filesystem as
it found it. -/

theorem fsDel_append_self (fs : List String) (n : String) (h : ¬ n ∈ fs) :
    fsDel (fs ++ [n]) n = fs := by
  unfold fsDel
  rw [List.filter_append]
  have h2 : fs.filter (fun x => decide (x ≠ n)) = fs := by
    apply List.filter_eq_self.mpr
    intro a ha
    have han : a ≠ n := fun he => h (he ▸ ha)
    simp [han]
  simp only [h2]
  simp

theorem stampLoop_clean (fuel : Nat) : ∀ (i : Nat) (s : FsState),
    (∀ j, ¬ (overlayName j) ∈ s.fs) →
    (stampLoop none fuel i s).1.fs = s.fs ∧ (stampLoop none fuel i s).2 = none := by
  induction fuel with
  | zero => intro i s h; exact ⟨rfl, rfl⟩
  | succ n ih =>
    intro i s h
    unfold stampLoop
    dsimp only
    rw [if_neg (by simp : ¬ ((none : Option Nat) = some i))]
    have hfs : (fsRm (fsTouch s (overlayName i)) (overlayName i)).fs = s.fs := by
      simp only [fsRm, fsTouch, fsAdd]
      exact fsDel_append_self s.fs (overlayName i) (h i)
    have hinv : ∀ j, ¬ (overlayName j) ∈ (fsRm (fsTouch s (overlayName i)) (overlayName i)).fs := by
      intro j
      rw [hfs]
      exact h j
    have hr := ih (i + 1) (fsRm (fsTouch s (overlayName i)) (overlayName i)) hinv
    exact ⟨by rw [hr.1, hfs], hr.2⟩

theorem add_header_footer_fs_clean (s : FsState) (total : Nat) (out : String)
    (h : ∀ j, ¬ (overlayName j) ∈ s.fs) :
    (add_header_footer_fs none s total out).1.fs = s.fs ++ [out] ∧
    (add_header_footer_fs none s total out).2 = none := by
  unfold add_header_footer_fs
  rcases hsl : stampLoop none total 0 s with ⟨s1, r⟩
  have hc := stampLoop_clean total 0 s h
  rw [hsl] at hc
  obtain ⟨h1, h2⟩ := hc
  dsimp only at h1 h2
  subst h2
  dsimp only
  exact ⟨by simp [fsTouch, fsAdd, h1], rfl⟩

/-! Helper facts: the `finally` cleanup in `main` and the projections
it leaves untouched. -/

theorem removeIfExists_navUrls (t : Trace) (n : String) :
    (removeIfExists t n).navUrls = t.navUrls := by
  unfold removeIfExists
  split <;> rfl

theorem removeIfExists_setContentArgs (t : Trace) (n : String) :
    (removeIfExists t n).setContentArgs = t.setContentArgs := by
  unfold removeIfExists
  split <;> rfl

theorem capture_nav_snapshot (env : Env) (url o : String) (w h s : Nat)
    (hg : env.gotoOk = true) :
    (capture_webpage_fs env url o w h s).1.navUrls = [url] ∧
    (capture_webpage_fs env url o w h s).1.setContentArgs = [env.content, env.content] := by
  unfold capture_webpage_fs
  dsimp only
  rw [hg]
  rw [if_neg (by simp : ¬ ((true : Bool) = false))]
  rcases capture_after_goto_shape env
      { Trace.start with
        viewport := some (w * s / 100, h * s / 100),
        navUrls := [url],
        setContentArgs := [env.content, env.content] }
      ("first_page_" ++ basename o) ("rest_pages_" ++ basename o) o with ⟨s2, w2, d2, e2, h2⟩
  rw [h2]
  exact ⟨rfl, rfl⟩

/-! ## Claim theorems: merge -/

/-- Claim C1: for first-render with F pages and rest-render with R pages,
R at least 1, `merge_pdfs` produces exactly `1 + (R - 1)` pages when F is
at least 1 and `R - 1` pages when F = 0; its page 1 is first-render's
page 1 (when F is at least 1) and its remaining pages are rest-render's
pages 2..R in order; in particular the merged length equals R whenever
both F and R are at least 1. -/
theorem merge_pdfs_invariant (f r : Doc) (p : String) (hR : 1 ≤ r.length) :
    (1 ≤ f.length →
      (merge_pdfs (some f) (some r) p).pages.length = 1 + (r.length - 1) ∧
      (merge_pdfs (some f) (some r) p).pages.head? = f.head? ∧
      (merge_pdfs (some f) (some r) p).pages.drop 1 = r.drop 1 ∧
      (merge_pdfs (some f) (some r) p).pages.length = r.length) ∧
    (f.length = 0 →
      (merge_pdfs (some f) (some r) p).pages.length = r.length - 1 ∧
      (merge_pdfs (some f) (some r) p).pages = r.drop 1) := by
  constructor
  · intro hf
    cases f with
    | nil => simp at hf
    | cons a fs =>
      have hm : (merge_pdfs (some (a :: fs)) (some r) p).pages = a :: r.drop 1 := by
        simp [merge_pdfs, merge_pages]
      refine ⟨?_, ?_, ?_, ?_⟩
      · rw [hm]; simp; omega
      · rw [hm]; simp
      · rw [hm]; simp
      · rw [hm]; simp; omega
  · intro hf
    have hf0 : f = [] := List.length_eq_zero.mp hf
    subst hf0
    constructor
    · simp [merge_pdfs, merge_pages]
    · simp [merge_pdfs, merge_pages]

theorem merge_pdfs_invariant_witness :
    1 ≤ ([{ content := "A", width := 612, height := 792 },
          { content := "B", width := 612, height := 792 }] : Doc).length ∧
    ((1 ≤ ([{ content := "A", width := 612, height := 792 }] : Doc).length →
      (merge_pdfs (some [{ content := "A", width := 612, height := 792 }])
        (some [{ content := "A", width := 612, height := 792 },
               { content := "B", width := 612, height := 792 }]) "out.pdf").pages.length
        = 1 + (([{ content := "A", width := 612, height := 792 },
                 { content := "B", width := 612, height := 792 }] : Doc).length - 1) ∧
      (merge_pdfs (some [{ content := "A", width := 612, height := 792 }])
        (some [{ content := "A", width := 612, height := 792 },
               { content := "B", width := 612, height := 792 }]) "out.pdf").pages.head?
        = ([{ content := "A", width := 612, height := 792 }] : Doc).head? ∧
      (merge_pdfs (some [{ content := "A", width := 612, height := 792 }])
        (some [{ content := "A", width := 612, height := 792 },
               { content := "B", width := 612, height := 792 }]) "out.pdf").pages.drop 1
        = ([{ content := "A", width := 612, height := 792 },
            { content := "B", width := 612, height := 792 }] : Doc).drop 1 ∧
      (merge_pdfs (some [{ content := "A", width := 612, height := 792 }])
        (some [{ content := "A", width := 612, height := 792 },
               { content := "B", width := 612, height := 792 }]) "out.pdf").pages.length
        = ([{ content := "A", width := 612, height := 792 },
            { content := "B", width := 612, height := 792 }] : Doc).length) ∧
     (([{ content := "A", width := 612, height := 792 }] : Doc).length = 0 →
      (merge_pdfs (some [{ content := "A", width := 612, height := 792 }])
        (some [{ content := "A", width := 612, height := 792 },
               { content := "B", width := 612, height := 792 }]) "out.pdf").pages.length
        = ([{ content := "A", width := 612, height := 792 },
            { content := "B", width := 612, height := 792 }] : Doc).length - 1 ∧
      (merge_pdfs (some [{ content := "A", width := 612, height := 792 }])
        (some [{ content := "A", width := 612, height := 792 },
               { content := "B", width := 612, height := 792 }]) "out.pdf").pages
        = ([{ content := "A", width := 612, height := 792 },
            { content := "B", width := 612, height := 792 }] : Doc).drop 1)) :=
  ⟨by decide,
   merge_pdfs_invariant [{ content := "A", width := 612, height := 792 }]
     [{ content := "A", width := 612, height := 792 },
      { content := "B", width := 612, height := 792 }] "out.pdf" (by decide)⟩

/-! ## Claim theorems: overlay texts and geometry -/

/-- Claim C4: for every final document of at least one page produced by
`add_header_footer` with url `u` and timestamp `t`, every page `i`
(1-based) carries footer text exactly "Page i of N" with `N` the input
document's total page count fixed for all pages, header text exactly
"URL: u" and "Fetched: t", and the same timestamp text on every page of
the invocation (the timestamp is a single value taken once, not
re-sampled per page). -/
theorem add_header_footer_overlay (doc : Doc) (url timestamp : String)
    (i : Nat) (hi : i < doc.length) :
    ∃ sp : StampedPage,
      (add_header_footer doc url timestamp)[i]? = some sp ∧
      sp.stamp.footerText = "Page " ++ toString (i + 1) ++ " of " ++ toString doc.length ∧
      sp.stamp.headerUrlText = "URL: " ++ url ∧
      sp.stamp.headerFetchedText = "Fetched: " ++ timestamp ∧
      (∀ j : Nat, ∀ sq : StampedPage, j < doc.length →
        (add_header_footer doc url timestamp)[j]? = some sq →
        sq.stamp.headerFetchedText = sp.stamp.headerFetchedText) := by
  rcases hp : doc[i]? with _ | p
  · rw [List.getElem?_eq_none_iff] at hp; omega
  refine ⟨{ base := p, stamp := mkStamp url timestamp i doc.length p }, ?_, rfl, rfl, rfl, ?_⟩
  · rw [add_header_footer_getElem, hp]; rfl
  · intro j sq hj hsq
    rw [add_header_footer_getElem] at hsq
    rcases hq : doc[j]? with _ | q
    · rw [hq] at hsq; cases hsq
    · rw [hq] at hsq
      have hsq2 : ({ base := q, stamp := mkStamp url timestamp j doc.length q } : StampedPage) = sq := by
        exact Option.some_injective _ hsq
      rw [hsq2.symm]
      rfl

theorem add_header_footer_overlay_witness :
    ((0 : Nat) < ([{ content := "A", width := 612, height := 792 }] : Doc).length) ∧
    ∃ sp : StampedPage,
      (add_header_footer [{ content := "A", width := 612, height := 792 }] "https://e.com" "2026-10-12 00:00:00")[0]? = some sp ∧
      sp.stamp.footerText = "Page " ++ toString (0 + 1) ++ " of " ++
        toString ([{ content := "A", width := 612, height := 792 }] : Doc).length ∧
      sp.stamp.headerUrlText = "URL: " ++ "https://e.com" ∧
      sp.stamp.headerFetchedText = "Fetched: " ++ "2026-10-12 00:00:00" ∧
      (∀ j : Nat, ∀ sq : StampedPage,
        j < ([{ content := "A", width := 612, height := 792 }] : Doc).length →
        (add_header_footer [{ content := "A", width := 612, height := 792 }] "https://e.com" "2026-10-12 00:00:00")[j]? = some sq →
        sq.stamp.headerFetchedText = sp.stamp.headerFetchedText) :=
  ⟨by decide,
   add_header_footer_overlay [{ content := "A", width := 612, height := 792 }]
     "https://e.com" "2026-10-12 00:00:00" 0 (by decide)⟩

/-- Claim C9: `add_header_footer` positions every stamp element (URL
line, Fetched line, separator rule, page-number footer) from the
constant Letter page dimensions (612 x 792 points) and never from the
individual page's own media-box: the overlay coordinates are fixed
Letter-relative constants, identical for any two pages whatever their
sizes. -/
theorem mkStamp_letter_geometry (url timestamp : String) (i total : Nat) (p q : Page) :
    (mkStamp url timestamp i total p).urlPos = (36, 756) ∧
    (mkStamp url timestamp i total p).fetchedPos = (36, 3726/5) ∧
    (mkStamp url timestamp i total p).sepFrom = (36, 3708/5) ∧
    (mkStamp url timestamp i total p).sepTo = (576, 3708/5) ∧
    (mkStamp url timestamp i total p).footerPos = (540, 36) ∧
    mkStamp url timestamp i total p = mkStamp url timestamp i total q := by
  refine ⟨?_, ?_, ?_, ?_, ?_, rfl⟩ <;>
    simp only [mkStamp, inch, letterWidth, letterHeight, Prod.mk.injEq] <;>
    norm_num

/-- Claim C10: when both inputs to `merge_pdfs` are absent, or both are
present with zero pages, it still writes a zero-page document at the
output path and returns that path, without failing. -/
theorem merge_pdfs_empty_inputs (p : String) :
    merge_pdfs none none p = { pages := [], written := true, returned := p } ∧
    merge_pdfs (some []) (some []) p = { pages := [], written := true, returned := p } :=
  ⟨rfl, rfl⟩

/-! ## Claim theorems: effect model -/

/-- Claim C8: when the merged document handed to the overlay step has
zero pages, `add_header_footer` produces a zero-page output, still
writes the output file, and returns normally rather than raising. -/
theorem add_header_footer_zero_pages (url timestamp output_pdf : String)
    (failAt : Option Nat) (s : FsState) :
    add_header_footer ([] : Doc) url timestamp = [] ∧
    add_header_footer_fs failAt s 0 output_pdf = (fsTouch s output_pdf, none) :=
  ⟨rfl, rfl⟩

/-- Claim C5: for every valid scale in [10, 200], the capture's rendered
viewport dimensions are the input dimensions times scale over 100,
rounded down to whole pixels (Python `int` truncation of a non-negative
value, i.e. floor division). -/
theorem capture_viewport_scaling (env : Env) (url o : String) (w h s : Nat)
    (hs1 : 10 ≤ s) (hs2 : s ≤ 200) :
    (capture_webpage_fs env url o w h s).1.viewport =
      some (w * s / 100, h * s / 100) := by
  unfold capture_webpage_fs
  dsimp only
  split
  · rfl
  · rcases capture_after_goto_shape env
      { Trace.start with
        viewport := some (w * s / 100, h * s / 100),
        navUrls := [url],
        setContentArgs := [env.content, env.content] }
      ("first_page_" ++ basename o) ("rest_pages_" ++ basename o) o with ⟨s2, w2, d2, e2, h2⟩
    rw [h2]

theorem capture_viewport_scaling_witness :
    (10 ≤ 50 ∧ 50 ≤ 200) ∧
    (capture_webpage_fs envOk ("https://example.com/") ("out.pdf") 1280 800 50).1.viewport
      = some (640, 400) := by
  refine ⟨by decide, ?_⟩
  rw [capture_viewport_scaling envOk ("https://example.com/") ("out.pdf") 1280 800 50
    (by decide) (by decide)]

/-- Claim C6: for every scale outside [10, 200], the invocation fails
with the fatal validation error before anything else happens: no
navigation is performed, no file is ever created, and nothing is left
on disk. -/
theorem scale_validation_first (env : Env) (url output : String) (w h s : Nat)
    (hs : ¬ (10 ≤ s ∧ s ≤ 200)) :
    main env url output w h s = (Trace.start, some ("Scale must be between 10 and 200")) ∧
    (main env url output w h s).1.navUrls = [] ∧
    (main env url output w h s).1.fsState.created = [] ∧
    (main env url output w h s).1.fsState.fs = [] := by
  have h1 : main env url output w h s =
      (Trace.start, some ("Scale must be between 10 and 200")) := by
    unfold main; rw [if_neg hs]
  exact ⟨h1, by rw [h1]; rfl, by rw [h1]; rfl, by rw [h1]; rfl⟩

theorem scale_validation_first_witness :
    (¬ (10 ≤ 5 ∧ 5 ≤ 200)) ∧
    (main envOk ("https://example.com/") ("out.pdf") 1280 800 5
        = (Trace.start, some ("Scale must be between 10 and 200")) ∧
      (main envOk ("https://example.com/") ("out.pdf") 1280 800 5).1.navUrls = [] ∧
      (main envOk ("https://example.com/") ("out.pdf") 1280 800 5).1.fsState.created = [] ∧
      (main envOk ("https://example.com/") ("out.pdf") 1280 800 5).1.fsState.fs = []) :=
  ⟨by decide,
   scale_validation_first envOk ("https://example.com/") ("out.pdf") 1280 800 5 (by decide)⟩

/-- Claim C2 counterexample: with every operation healthy except the
second render (a render error the spec itself classes as a normal
fatal-failure exit), the invocation raises, yet the per-render file
`first_page_temp_out.pdf` created by the first render is left on
disk — the cleanup at lines 324-327 is only reached on the success
path, so temporary artifacts are not deleted on every exit path. -/
theorem cleanup_counterexample :
    (main envRestRenderFails ("https://example.com/") ("out.pdf") 1280 800 100).2
      = some ("rest render error") ∧
    (main envRestRenderFails ("https://example.com/") ("out.pdf") 1280 800 100).1.fsState.fs
      = ["first_page_temp_out.pdf"] := by
  constructor <;> rfl

/-- Claim C3 counterexample: a failure of the popup-removal filter
mutation (line 173) is not caught: the capture aborts with that error
and no warning is logged, so the Heuristic Content Filter does raise
out of the capture. -/
theorem filter_counterexample :
    (capture_webpage_fs envPopupEvalFails ("https://example.com/") ("temp_out.pdf") 1280 800 100).2
      = some ("popup eval error") ∧
    (capture_webpage_fs envPopupEvalFails ("https://example.com/") ("temp_out.pdf") 1280 800 100).1.warnings
      = [] := by
  constructor <;> rfl

/-- Claim C7: in an invocation whose scale is valid, navigation is
attempted exactly once (to the requested url), and both render
surfaces are initialized by `set_content` from the single cached
snapshot of that one navigation — whatever happens later in the
pipeline. -/
theorem single_navigation (env : Env) (url output : String) (w h s : Nat)
    (hv : 10 ≤ s ∧ s ≤ 200) (hg : env.gotoOk = true) :
    (main env url output w h s).1.navUrls = [url] ∧
    (main env url output w h s).1.setContentArgs = [env.content, env.content] := by
  unfold main
  rw [if_pos hv]
  dsimp only
  rcases hc : capture_webpage_fs env url ("temp_" ++ basename output) w h s with ⟨t, e⟩
  have hn := capture_nav_snapshot env url ("temp_" ++ basename output) w h s hg
  rw [hc] at hn
  dsimp only at hn
  cases e with
  | some err =>
    dsimp only
    exact ⟨by rw [removeIfExists_navUrls]; exact hn.1,
           by rw [removeIfExists_setContentArgs]; exact hn.2⟩
  | none =>
    rcases hs2 : add_header_footer_fs env.stampFailsAt t.fsState t.merged.length output
      with ⟨s2, r⟩
    dsimp only
    rw [hs2]
    dsimp only
    exact ⟨by rw [removeIfExists_navUrls]; exact hn.1,
           by rw [removeIfExists_setContentArgs]; exact hn.2⟩

theorem single_navigation_witness :
    ((10 ≤ 100 ∧ 100 ≤ 200) ∧ envOk.gotoOk = true) ∧
    ((main envOk ("https://example.com/") ("out.pdf") 1280 800 100).1.navUrls
        = ["https://example.com/"] ∧
     (main envOk ("https://example.com/") ("out.pdf") 1280 800 100).1.setContentArgs
        = [envOk.content, envOk.content]) :=
  ⟨⟨by decide, rfl⟩,
   single_navigation envOk ("https://example.com/") ("out.pdf") 1280 800 100 (by decide) rfl⟩

/-- Claim C2, amended: on the success path (no pipeline operation
fails) every temporary artifact — the two per-render PDFs, the
temporary merged PDF and every per-page overlay fragment — is deleted
before the invocation returns, so only the output file remains on
disk; but this deletion is not performed on every exit path (see the
counterexample: a fatal failure after a per-render PDF exists leaves
that file behind). -/
theorem cleanup_success (env : Env) (url output : String) (w h s : Nat)
    (hv : 10 ≤ s ∧ s ≤ 200)
    (hg : env.gotoOk = true)
    (hp : env.popupsOk = true) (hrz : env.resizeOk = true) (hh : env.headerMarkOk = true)
    (hf : env.firstRenderOk = true) (hr : env.restRenderOk = true)
    (hm : env.mergeOpenOk = true) (hd1 : env.removeFirstOk = true)
    (hd2 : env.removeRestOk = true)
    (hsf : env.stampFailsAt = none)
    (hout : output ≠ "temp_" ++ basename output) :
    (main env url output w h s).2 = none ∧
    (main env url output w h s).1.fsState.fs = [output] := by
  unfold main
  rw [if_pos hv]
  dsimp only
  rw [capture_webpage_fs_ok env url ("temp_" ++ basename output) w h s hg hp hrz hh hf hr hm
    hd1 hd2 (first_ne_temp_name _ _) (rest_ne_temp_name _ _)]
  dsimp only
  rw [hsf]
  have hov : ∀ j, ¬ (overlayName j) ∈ ["temp_" ++ basename output] := by
    intro j hmem
    exact overlay_ne_temp_name j (basename output) (List.mem_singleton.mp hmem)
  have hc := add_header_footer_fs_clean
    (FsState.mk ["temp_" ++ basename output]
      ["first_page_" ++ basename ("temp_" ++ basename output),
       "rest_pages_" ++ basename ("temp_" ++ basename output),
       "temp_" ++ basename output])
    (merge_pages (some env.firstDoc) (some env.restDoc)).length output hov
  rcases hadd : add_header_footer_fs none
    (FsState.mk ["temp_" ++ basename output]
      ["first_page_" ++ basename ("temp_" ++ basename output),
       "rest_pages_" ++ basename ("temp_" ++ basename output),
       "temp_" ++ basename output])
    (merge_pages (some env.firstDoc) (some env.restDoc)).length output with ⟨s2, r⟩
  rw [hadd] at hc
  obtain ⟨hcfs, hcr⟩ := hc
  dsimp only at hcfs hcr
  subst hcr
  dsimp only
  refine ⟨rfl, ?_⟩
  unfold removeIfExists fsRm fsDel
  dsimp only
  rw [hcfs]
  simp [List.contains_cons, beq_self_eq_true, hout]

theorem cleanup_success_witness :
    ((10 ≤ 100 ∧ 100 ≤ 200) ∧
      ("out.pdf" : String) ≠ "temp_" ++ basename ("out.pdf")) ∧
    ((main envOk ("https://example.com/") ("out.pdf") 1280 800 100).2 = none ∧
     (main envOk ("https://example.com/") ("out.pdf") 1280 800 100).1.fsState.fs
        = ["out.pdf"]) :=
  ⟨⟨by decide, by decide⟩,
   cleanup_success envOk ("https://example.com/") ("out.pdf") 1280 800 100 (by decide)
     rfl rfl rfl rfl rfl rfl rfl rfl rfl rfl (by decide)⟩

/-- Claim C3, amended: only the ad-blocker setup mutation is protected
by its own handler — its failure is logged as a warning and the
capture continues to a normal completion; a failure of any other
filter mutation, such as the popup-removal evaluation, propagates and
aborts the capture fatally. -/
theorem filter_amended (env : Env) (url o : String) (w h s : Nat)
    (hg : env.gotoOk = true) (hi : env.initScriptOk = false)
    (hp : env.popupsOk = true) (hrz : env.resizeOk = true) (hh : env.headerMarkOk = true)
    (hf : env.firstRenderOk = true) (hr : env.restRenderOk = true)
    (hm : env.mergeOpenOk = true) (hd1 : env.removeFirstOk = true)
    (hd2 : env.removeRestOk = true)
    (hfo : ("first_page_" ++ basename o) ≠ o) (hro : ("rest_pages_" ++ basename o) ≠ o) :
    (capture_webpage_fs env url o w h s).2 = none ∧
    (capture_webpage_fs env url o w h s).1.warnings = ["Failed to set up ad blocker"] ∧
    (∀ env2 : Env, env2.gotoOk = true → env2.popupsOk = false →
      (capture_webpage_fs env2 url o w h s).2 = some ("popup eval error")) := by
  have hok := capture_webpage_fs_ok env url o w h s hg hp hrz hh hf hr hm hd1 hd2 hfo hro
  refine ⟨by rw [hok], ?_, fun env2 hg2 hp2 => capture_popup_fail env2 url o w h s hg2 hp2⟩
  rw [hok]
  dsimp only
  rw [hi]
  simp

theorem filter_amended_witness :
    (envAdBlockFails.gotoOk = true ∧ envAdBlockFails.initScriptOk = false ∧
      ("first_page_" ++ basename ("temp_out.pdf")) ≠ "temp_out.pdf" ∧
      ("rest_pages_" ++ basename ("temp_out.pdf")) ≠ "temp_out.pdf") ∧
    ((capture_webpage_fs envAdBlockFails ("https://example.com/") ("temp_out.pdf") 1280 800 100).2
        = none ∧
     (capture_webpage_fs envAdBlockFails ("https://example.com/") ("temp_out.pdf") 1280 800 100).1.warnings
        = ["Failed to set up ad blocker"] ∧
     (∀ env2 : Env, env2.gotoOk = true → env2.popupsOk = false →
       (capture_webpage_fs env2 ("https://example.com/") ("temp_out.pdf") 1280 800 100).2
          = some ("popup eval error"))) :=
  ⟨⟨rfl, rfl, by decide, by decide⟩,
   filter_amended envAdBlockFails ("https://example.com/") ("temp_out.pdf") 1280 800 100
     rfl rfl rfl rfl rfl rfl rfl rfl rfl rfl (by decide) (by decide)⟩

end WebToPdf
